import Mathlib

/-!
Verification of the question-generation pipeline in `app.py` of the
inquisitive-streamlit-app repository.

The program is a straight-line orchestration of external services:
credential lookup, model listing, API configuration, a word-count gate,
language detection, forward translation to English, question generation,
back-translation, and display.  We embed it shallowly: each external
service is a field of an `Env` record supplying its outcome, the
Streamlit display surface is a list of emitted messages, and every
external call issued is recorded in a call trace.  Presentation-only
scaffolding (the page title, the informational banner, the text area
widget and the button widget themselves) is not modelled; the messages
that carry pipeline information (info, warning, error, subheader, write)
are.
-/

/-- A message emitted to the display surface: `st.info`, `st.warning`,
`st.error`, `st.subheader`, `st.write` respectively. -/
inductive Msg where
  | info (s : String)
  | warning (s : String)
  | error (s : String)
  | subheader (s : String)
  | write (s : String)
deriving DecidableEq, Repr

/-- An external call issued by the pipeline: language detection
(`detect(user_text)`), translation (`translator.translate(text, src=_, dest=_)`),
or a generation request (`model.generate_content(prompt)`). -/
inductive ExtCall where
  | detect (text : String)
  | translate (text src dest : String)
  | generate (prompt : String)
deriving DecidableEq, Repr

/-- Outcome of `model.generate_content`: the returned text, a raised
`exceptions.GoogleAPIError`, or any other raised exception.  The two
error constructors mirror the two `except` clauses of
`generate_questions`. -/
inductive GenOutcome where
  | ok (text : String)
  | googleAPIError (msg : String)
  | otherError (msg : String)
deriving DecidableEq, Repr

/-- The external world the script runs against: the model-listing call
(`genai.list_models()`, line 22), the configuration block
(`genai.configure` plus `GenerativeModel` construction, lines 26-30),
`langdetect.detect`, `googletrans` translation keyed by (text, src, dest),
and the generation call.  `Except.error` models a raised exception. -/
structure Env where
  listModels : Except String (List String)
  configure : Except String Unit
  detect : String → Except String String
  translate : String → String → String → Except String String
  generateContent : String → GenOutcome

/-- Word-character predicate of the regex `\w`: letters, digits or
underscore (modelled over the ASCII ranges `Char.isAlphanum` covers). -/
def isWordChar (c : Char) : Bool :=
  c.isAlphanum || c == '_'

/-- Counts maximal runs of word characters: the length of
`re.findall(r..., user_text)` for the word regex at line 84.  The Boolean
argument records whether the previous character was a word character. -/
def countWordsAux : List Char → Bool → Nat
  | [], _ => 0
  | c :: cs, inWord =>
    if isWordChar c then
      (if inWord then 0 else 1) + countWordsAux cs true
    else
      countWordsAux cs false

/-- `word_count = len(re.findall(r..., user_text))` at line 84. -/
def countWords (s : String) : Nat :=
  countWordsAux s.data false

/-- `min_word_limit = 5` at line 87. -/
def minWordLimit : Nat := 5

/-- The f-string prompt template of `generate_questions` (lines 44-54),
with the user text interpolated between the `---` fences. -/
def promptTemplate (text : String) : String :=
  "Generate a list of questions based on the following text.\nEach question should be directly answerable from the text provided.\nProvide the questions as a numbered list.\n\nText:\n---\n"
    ++ text ++ "\n---\n\nQuestions:\n"

/-- Python `str.strip()`: removes leading and trailing whitespace.
Implemented over the character list so it reduces in the kernel. -/
def strip (s : String) : String :=
  ⟨List.reverse (List.dropWhile Char.isWhitespace
    (List.reverse (List.dropWhile Char.isWhitespace s.data)))⟩

/-- The fixed message returned at line 59 when the stripped response is
empty. -/
def noQuestionsMsg : String :=
  "No questions could be generated from the provided text."

/-- `generate_questions(text)` (lines 40-70): builds the prompt, issues
the generation call, strips the response; an empty stripped response is
replaced by `noQuestionsMsg` (still a non-`None` return value); each
`except` clause emits its `st.error` messages and returns `None`.
Returns (the Python return value, messages emitted, calls issued). -/
def generate_questions (env : Env) (text : String) :
    Option String × List Msg × List ExtCall :=
  let p := promptTemplate text
  match env.generateContent p with
  | .ok t =>
    let questions := strip t
    if questions == "" then
      (some noQuestionsMsg, [], [.generate p])
    else
      (some questions, [], [.generate p])
  | .googleAPIError e =>
    (none,
     [.error ("Google API Error: " ++ e),
      .error "Possible reasons: Invalid API key, quota limits reached, network issues, or text violates content policy."],
     [.generate p])
  | .otherError e =>
    (none,
     [.error ("An unexpected error occurred during question generation: " ++ e)],
     [.generate p])

/-- The per-request resolver state after lines 99-115: `translated_text`,
`detected_language`, `translation_needed`. -/
structure Resolved where
  translated_text : String
  detected_language : String
  translation_needed : Bool
deriving DecidableEq, Repr

/-- The detection/translation block of `main` (lines 99-115).  The
`try` body detects the language; when it differs from "en" it translates
to English and only then sets `translation_needed`; the `except` handler
resets the text to the original and the language to "en"
(`translation_needed` stays `false`, since the assignment at line 107 is
only reached after a successful translate call).
Returns (resolver state, messages emitted, calls issued). -/
def resolveStep (env : Env) (user_text : String) :
    Resolved × List Msg × List ExtCall :=
  match env.detect user_text with
  | .error e =>
    (⟨user_text, "en", false⟩,
     [.warning ("Could not reliably detect language or translate. Proceeding with text as is. Error: " ++ e)],
     [.detect user_text])
  | .ok lang =>
    if lang == "en" then
      (⟨user_text, "en", false⟩,
       [.info "Detected language: English."],
       [.detect user_text])
    else
      match env.translate user_text lang "en" with
      | .ok t =>
        (⟨t, lang, true⟩,
         [.info ("Detected language: " ++ lang ++ ". Translating to English for processing.")],
         [.detect user_text, .translate user_text lang "en"])
      | .error e =>
        (⟨user_text, "en", false⟩,
         [.warning ("Could not reliably detect language or translate. Proceeding with text as is. Error: " ++ e)],
         [.detect user_text, .translate user_text lang "en"])

/-- The observable result of one run of `main`: messages emitted, external
calls issued, and the questions text written to the output area (`none`
when nothing was displayed). -/
structure RunResult where
  msgs : List Msg
  calls : List ExtCall
  displayed : Option String
deriving DecidableEq, Repr

/-- The generation-and-display part of `main` (lines 98-133), reached
when the button is pressed: resolve, generate, and if generation returned
non-`None`, back-translate when `translation_needed and detected_language
!= en` (keeping the English text on back-translation failure), then
display under the "Generated Questions:" subheader. -/
def mainGenerate (env : Env) (user_text : String) : RunResult :=
  match resolveStep env user_text with
  | (res, rmsgs, rcalls) =>
    match generate_questions env res.translated_text with
    | (none, gmsgs, gcalls) =>
      ⟨rmsgs ++ gmsgs, rcalls ++ gcalls, none⟩
    | (some q, gmsgs, gcalls) =>
      if res.translation_needed && res.detected_language != "en" then
        match env.translate q "en" res.detected_language with
        | .ok t =>
          ⟨rmsgs ++ gmsgs
             ++ [.info ("Translating questions back to " ++ res.detected_language ++ "."),
                 .subheader "Generated Questions:", .write t],
           rcalls ++ gcalls ++ [.translate q "en" res.detected_language],
           some t⟩
        | .error e =>
          ⟨rmsgs ++ gmsgs
             ++ [.info ("Translating questions back to " ++ res.detected_language ++ "."),
                 .warning ("Error during translation of questions back to " ++ res.detected_language ++ ". Displaying in English. Error: " ++ e),
                 .subheader "Generated Questions:", .write q],
           rcalls ++ gcalls ++ [.translate q "en" res.detected_language],
           some q⟩
      else
        ⟨rmsgs ++ gmsgs ++ [.subheader "Generated Questions:", .write q],
         rcalls ++ gcalls,
         some q⟩

/-- `main()` (lines 75-133): computes the word count; below
`min_word_limit` it emits the shortfall warning and renders a disabled
button, so pressing does nothing; otherwise the pipeline runs only when
the button is pressed. -/
def runMain (env : Env) (user_text : String) (pressed : Bool) : RunResult :=
  if countWords user_text < minWordLimit then
    ⟨[.warning "Please enter at least 5 words."], [], none⟩
  else if pressed then
    mainGenerate env user_text
  else
    ⟨[], [], none⟩

/-- Python truthiness of the optional credential strings: `None` and the
empty string are falsy. -/
def truthyOpt : Option String → Bool
  | none => false
  | some s => s != ""

/-- `API_KEY = os.getenv(...) or st.secrets.get(...)` at line 14: the
Python `or` keeps the first operand when it is truthy, else the second. -/
def apiKeyOf (envKey secretsKey : Option String) : Option String :=
  if truthyOpt envKey then envKey else secretsKey

/-- Outcome of one run of the whole script: `halted` models `st.stop()`,
`raised` models an exception propagating uncaught out of the script, and
`completed` carries the module-level messages plus the result of
`main()`. -/
inductive AppOutcome where
  | halted (msgs : List Msg)
  | raised (e : String)
  | completed (startupMsgs : List Msg) (result : RunResult)
deriving DecidableEq, Repr

/-- The calls issued by an app run; a halted or raised run issued no
pipeline call. -/
def outcomeCalls : AppOutcome → List ExtCall
  | .halted _ => []
  | .raised _ => []
  | .completed _ r => r.calls

/-- The whole script (lines 14-136): the credential check at lines 17-19
stops before anything else; the `genai.list_models()` loop at lines 21-23
is not inside any `try` block, so a listing failure propagates uncaught;
the configuration block at lines 26-33 catches its own failure and stops;
then `main()` runs. -/
def runApp (envKey secretsKey : Option String) (env : Env)
    (user_text : String) (pressed : Bool) : AppOutcome :=
  if truthyOpt (apiKeyOf envKey secretsKey) = false then
    .halted [.error "Google API key not found. Please set the \x27GOOGLE_API_KEY\x27 environment variable."]
  else
    match env.listModels with
    | .error e => .raised e
    | .ok models =>
      match env.configure with
      | .error e =>
        .halted ([.subheader "Available Models"] ++ models.map Msg.write
                   ++ [.error ("Failed to configure Gemini API: " ++ e)])
      | .ok _ =>
        .completed ([.subheader "Available Models"] ++ models.map Msg.write)
          (runMain env user_text pressed)

/-- Modelled from the spec: the repository is described as three
near-duplicate iterations, and the two-tier provider fallback of the
Question Generator (spec section 4.3) lives in the iterations that are
not part of the given source file.  A provider failure, classified as
quota/rate-limit, other API error, or unexpected error. -/
inductive SpecGenError where
  | quota (msg : String)
  | apiError (msg : String)
  | unexpected (msg : String)
deriving DecidableEq, Repr

/-- Modelled from the spec: the `ProviderResult` of section 4.3 — a
successful questions text or an explicit failure with a message. -/
inductive SpecProviderResult where
  | success (questions : String)
  | failure (msg : String)
deriving DecidableEq, Repr

/-- Modelled from the spec: a call made to the primary or the secondary
provider, with the prompt it was sent. -/
inductive SpecCall where
  | primaryCall (prompt : String)
  | secondaryCall (prompt : String)
deriving DecidableEq, Repr

/-- Modelled from the spec: the generator configuration — an optional
primary and an optional secondary provider, each answering a prompt. -/
structure SpecGenConfig where
  primary : Option (String → Except SpecGenError String)
  secondary : Option (String → Except SpecGenError String)

/-- Modelled from the spec: the message of section 4.3 step 4 when no
provider succeeds and no further fallback exists. -/
def noFallbackMsg : String := "no fallback available"

/-- Modelled from the spec: the edge case of section 4.3 — a provider
response that is empty after stripping whitespace is a failure-equivalent
result, otherwise a success. -/
def emptyCheck (t : String) : SpecProviderResult :=
  if strip t == "" then .failure "no questions could be generated"
  else .success (strip t)

/-- Modelled from the spec: `generate(workingLanguageText)` of section
4.3 — try the primary provider; on any failure fall back to the
secondary with the identical prompt; the secondary result is final; when
no provider succeeds and no secondary is configured the result is a
failure carrying `noFallbackMsg`.  Returns (result, provider calls). -/
def generateSpec (cfg : SpecGenConfig) (text : String) :
    SpecProviderResult × List SpecCall :=
  let p := promptTemplate text
  match cfg.primary with
  | some prim =>
    match prim p with
    | .ok t => (emptyCheck t, [.primaryCall p])
    | .error _ =>
      match cfg.secondary with
      | some sec =>
        match sec p with
        | .ok t => (emptyCheck t, [.primaryCall p, .secondaryCall p])
        | .error _ => (.failure noFallbackMsg, [.primaryCall p, .secondaryCall p])
      | none => (.failure noFallbackMsg, [.primaryCall p])
  | none =>
    match cfg.secondary with
    | some sec =>
      match sec p with
      | .ok t => (emptyCheck t, [.secondaryCall p])
      | .error _ => (.failure noFallbackMsg, [.secondaryCall p])
    | none => (.failure noFallbackMsg, [])

/-- A healthy demo environment: detection says "fr", translation tags the
text with its target language, generation returns a fixed list. -/
def envDemo : Env :=
  ⟨.ok ["models/gemini-1.5-flash"], .ok (),
   fun _ => .ok "fr",
   fun txt src _ => if src == "en" then .ok ("fr(" ++ txt ++ ")") else .ok ("en(" ++ txt ++ ")"),
   fun _ => GenOutcome.ok "1. Question?"⟩

/-- A demo environment whose language detection raises. -/
def envDetectFail : Env :=
  ⟨.ok [], .ok (),
   fun _ => .error "LangDetectException",
   fun txt _ _ => .ok txt,
   fun _ => GenOutcome.ok "1. Question?"⟩

/-- A demo environment where back-translation (from "en") raises but
everything else succeeds. -/
def envBackFail : Env :=
  ⟨.ok [], .ok (),
   fun _ => .ok "fr",
   fun txt src _ => if src == "en" then .error "timeout" else .ok ("en(" ++ txt ++ ")"),
   fun _ => GenOutcome.ok "1. Question?"⟩

/-- A demo environment whose generation call returns an empty string. -/
def envEmptyGen : Env :=
  ⟨.ok [], .ok (),
   fun _ => .ok "en",
   fun _ _ _ => .error "unused",
   fun _ => GenOutcome.ok ""⟩

/-- A demo environment whose model-listing call raises. -/
def envListFail : Env :=
  ⟨.error "PermissionDenied: 403 API key not valid", .ok (),
   fun _ => .ok "en",
   fun txt _ _ => .ok txt,
   fun _ => GenOutcome.ok "1. Question?"⟩

/-- A spec-modelled generator configuration whose primary provider
raises a quota error and whose secondary succeeds. -/
def cfgDemo : SpecGenConfig :=
  ⟨some (fun _ => .error (.quota "429 quota exceeded")),
   some (fun _ => .ok "1. Question?")⟩

/-- Helper: with the word gate passed and the button pressed, `main`
runs the generation pipeline. -/
theorem runMain_pressed (env : Env) (t : String)
    (hw : ¬ countWords t < minWordLimit) :
    runMain env t true = mainGenerate env t := by
  simp [runMain, hw]

/-- Helper: resolver outcome when detection raises. -/
theorem resolveStep_detect_error (env : Env) (t e : String)
    (hd : env.detect t = .error e) :
    resolveStep env t
      = (⟨t, "en", false⟩,
         [.warning ("Could not reliably detect language or translate. Proceeding with text as is. Error: " ++ e)],
         [.detect t]) := by
  simp [resolveStep, hd]

/-- Helper: resolver outcome when detection returns "en". -/
theorem resolveStep_en (env : Env) (t : String)
    (hd : env.detect t = .ok "en") :
    resolveStep env t
      = (⟨t, "en", false⟩, [.info "Detected language: English."], [.detect t]) := by
  simp [resolveStep, hd]

/-- Helper: resolver outcome when forward translation succeeds. -/
theorem resolveStep_fwd_ok (env : Env) (t lang fwd : String)
    (hd : env.detect t = .ok lang) (hlang : lang ≠ "en")
    (hf : env.translate t lang "en" = .ok fwd) :
    resolveStep env t
      = (⟨fwd, lang, true⟩,
         [.info ("Detected language: " ++ lang ++ ". Translating to English for processing.")],
         [.detect t, .translate t lang "en"]) := by
  simp [resolveStep, hd, hlang, hf]

/-- Helper: resolver outcome when forward translation raises. -/
theorem resolveStep_fwd_error (env : Env) (t lang e : String)
    (hd : env.detect t = .ok lang) (hlang : lang ≠ "en")
    (hf : env.translate t lang "en" = .error e) :
    resolveStep env t
      = (⟨t, "en", false⟩,
         [.warning ("Could not reliably detect language or translate. Proceeding with text as is. Error: " ++ e)],
         [.detect t, .translate t lang "en"]) := by
  simp [resolveStep, hd, hlang, hf]

/-- Helper: when the resolver reports no translation needed, the
pipeline issues exactly the resolver calls plus one generation call. -/
theorem mainGenerate_no_back (env : Env) (t x : String)
    (m : List Msg) (c : List ExtCall)
    (hres : resolveStep env t = (⟨x, "en", false⟩, m, c)) :
    (mainGenerate env t).calls = c ++ [.generate (promptTemplate x)] := by
  cases hg : env.generateContent (promptTemplate x) with
  | ok s =>
    by_cases hstrip : strip s == "" <;>
      simp [mainGenerate, hres, generate_questions, hg, hstrip]
  | googleAPIError m2 => simp [mainGenerate, hres, generate_questions, hg]
  | otherError m2 => simp [mainGenerate, hres, generate_questions, hg]

/-- C1 (spec-modelled): when the configured primary provider fails, a
configured secondary is invoked with the identical prompt; with no
secondary configured the result is a terminal failure carrying the
no-fallback message. -/
theorem primary_failure_fallback (cfg : SpecGenConfig) (text : String)
    (prim : String → Except SpecGenError String) (err : SpecGenError)
    (hp : cfg.primary = some prim)
    (hf : prim (promptTemplate text) = .error err) :
    (∀ sec, cfg.secondary = some sec →
        SpecCall.secondaryCall (promptTemplate text) ∈ (generateSpec cfg text).2)
      ∧ (cfg.secondary = none →
          (generateSpec cfg text).1 = .failure noFallbackMsg) := by
  constructor
  · intro sec hs
    cases hsec : sec (promptTemplate text) <;>
      simp [generateSpec, hp, hf, hs, hsec]
  · intro hs
    simp [generateSpec, hp, hf, hs]

theorem primary_failure_fallback_witness :
    SpecCall.secondaryCall (promptTemplate "the cat sat on the mat")
      ∈ (generateSpec cfgDemo "the cat sat on the mat").2 :=
  (primary_failure_fallback cfgDemo "the cat sat on the mat"
      (fun _ => .error (.quota "429 quota exceeded")) (.quota "429 quota exceeded")
      rfl rfl).1 _ rfl

/-- C2: below five word-tokens the generate action is blocked, no
external call is issued, and the caller is told the minimum of 5. -/
theorem wordGate_blocks (env : Env) (user_text : String) (pressed : Bool)
    (h : countWords user_text < 5) :
    runMain env user_text pressed
      = ⟨[.warning "Please enter at least 5 words."], [], none⟩ := by
  simp [runMain, minWordLimit, h]

theorem wordGate_blocks_witness :
    runMain envDemo "hi there" true
      = ⟨[.warning "Please enter at least 5 words."], [], none⟩ :=
  wordGate_blocks envDemo "hi there" true (by decide)

/-- C3 counterexample: with a provider returning an empty string, the
pipeline still displays a result (the fixed placeholder message), so the
outcome is not a terminal failure and the value is handled as a
success. -/
theorem emptyGen_displayed_counterexample :
    (runMain envEmptyGen "alpha beta gamma delta epsilon" true).displayed
        = some noQuestionsMsg
      ∧ (runMain envEmptyGen "alpha beta gamma delta epsilon" true).displayed
        ≠ none := by
  constructor
  · rfl
  · decide

/-- C3 amended: an empty-after-strip generation response makes
`generate_questions` return the fixed no-questions message as a
non-`None` (success) value, which then flows through the display path. -/
theorem emptyGen_placeholder (env : Env) (text s : String)
    (hg : env.generateContent (promptTemplate text) = .ok s)
    (hs : strip s = "") :
    (generate_questions env text).1 = some noQuestionsMsg := by
  simp [generate_questions, hg, hs]

theorem emptyGen_placeholder_witness :
    (generate_questions envEmptyGen "alpha beta gamma delta epsilon").1
      = some noQuestionsMsg :=
  emptyGen_placeholder envEmptyGen "alpha beta gamma delta epsilon" "" rfl rfl

/-- C4: when detection raises, the resolver falls back to "en" with the
original text preserved, and the generator receives the original text. -/
theorem detectFail_preserves_text (env : Env) (user_text e : String)
    (hd : env.detect user_text = .error e)
    (hw : ¬ countWords user_text < 5) :
    (resolveStep env user_text).1 = ⟨user_text, "en", false⟩
      ∧ ExtCall.generate (promptTemplate user_text)
          ∈ (runMain env user_text true).calls := by
  have hres := resolveStep_detect_error env user_text e hd
  have hw' : ¬ countWords user_text < minWordLimit := by
    simpa [minWordLimit] using hw
  refine ⟨by rw [hres], ?_⟩
  rw [runMain_pressed env user_text hw', mainGenerate_no_back env user_text user_text _ _ hres]
  simp

theorem detectFail_preserves_text_witness :
    (resolveStep envDetectFail "un deux trois quatre cinq").1
        = ⟨"un deux trois quatre cinq", "en", false⟩
      ∧ ExtCall.generate (promptTemplate "un deux trois quatre cinq")
          ∈ (runMain envDetectFail "un deux trois quatre cinq" true).calls :=
  detectFail_preserves_text envDetectFail "un deux trois quatre cinq"
    "LangDetectException" rfl (by decide)

/-- C5: when detection returns "en" the resolver keeps the text
unchanged, issues no translation call, and reports English detected. -/
theorem resolver_en_identity (env : Env) (user_text : String)
    (h : env.detect user_text = .ok "en") :
    resolveStep env user_text
      = (⟨user_text, "en", false⟩, [.info "Detected language: English."],
         [.detect user_text]) := by
  simp [resolveStep, h]

theorem resolver_en_identity_witness :
    resolveStep envEmptyGen "The cat sat on the mat"
      = (⟨"The cat sat on the mat", "en", false⟩,
         [.info "Detected language: English."],
         [.detect "The cat sat on the mat"]) :=
  resolver_en_identity envEmptyGen "The cat sat on the mat" rfl

/-- C6: for a non-"en" input where forward translation, generation and
back-translation all succeed, the displayed text is the back-translation
and its call targets exactly the detected tag. -/
theorem roundTrip_targets_detected (env : Env) (t lang fwd s back : String)
    (hw : ¬ countWords t < 5)
    (hlang : lang ≠ "en")
    (hd : env.detect t = .ok lang)
    (hf : env.translate t lang "en" = .ok fwd)
    (hg : env.generateContent (promptTemplate fwd) = .ok s)
    (hs : ¬ strip s = "")
    (hb : env.translate (strip s) "en" lang = .ok back) :
    (runMain env t true).displayed = some back
      ∧ ExtCall.translate (strip s) "en" lang ∈ (runMain env t true).calls := by
  have hw' : ¬ countWords t < minWordLimit := by simpa [minWordLimit] using hw
  have hres := resolveStep_fwd_ok env t lang fwd hd hlang hf
  rw [runMain_pressed env t hw']
  simp [mainGenerate, hres, generate_questions, hg, hs, hlang, hb]

theorem roundTrip_targets_detected_witness :
    (runMain envDemo "un deux trois quatre cinq" true).displayed
        = some "fr(1. Question?)"
      ∧ ExtCall.translate "1. Question?" "en" "fr"
          ∈ (runMain envDemo "un deux trois quatre cinq" true).calls := by
  have h := roundTrip_targets_detected envDemo "un deux trois quatre cinq"
    "fr" "en(un deux trois quatre cinq)" "1. Question?" "fr(1. Question?)"
    (by decide) (by decide) rfl rfl rfl (by decide) rfl
  simpa using h

/-- C7: for a non-"en" input where generation succeeds but
back-translation fails, the English questions text is displayed with a
soft warning and no error message is emitted. -/
theorem backFail_degrades (env : Env) (t lang fwd s e : String)
    (hw : ¬ countWords t < 5)
    (hlang : lang ≠ "en")
    (hd : env.detect t = .ok lang)
    (hf : env.translate t lang "en" = .ok fwd)
    (hg : env.generateContent (promptTemplate fwd) = .ok s)
    (hs : ¬ strip s = "")
    (hb : env.translate (strip s) "en" lang = .error e) :
    (runMain env t true).displayed = some (strip s)
      ∧ Msg.warning ("Error during translation of questions back to " ++ lang ++ ". Displaying in English. Error: " ++ e)
          ∈ (runMain env t true).msgs
      ∧ (∀ m, Msg.error m ∉ (runMain env t true).msgs) := by
  have hw' : ¬ countWords t < minWordLimit := by simpa [minWordLimit] using hw
  have hres := resolveStep_fwd_ok env t lang fwd hd hlang hf
  rw [runMain_pressed env t hw']
  simp [mainGenerate, hres, generate_questions, hg, hs, hlang, hb]

theorem backFail_degrades_witness :
    (runMain envBackFail "un deux trois quatre cinq" true).displayed
        = some "1. Question?"
      ∧ Msg.warning ("Error during translation of questions back to fr. Displaying in English. Error: timeout")
          ∈ (runMain envBackFail "un deux trois quatre cinq" true).msgs
      ∧ (∀ m, Msg.error m ∉ (runMain envBackFail "un deux trois quatre cinq" true).msgs) := by
  have h := backFail_degrades envBackFail "un deux trois quatre cinq"
    "fr" "en(un deux trois quatre cinq)" "1. Question?" "timeout"
    (by decide) (by decide) rfl rfl rfl (by decide) rfl
  simpa using h

/-- C8: when the credential lookup yields nothing truthy, the script
halts at the startup check with the missing-key error and no pipeline
call is ever issued. -/
theorem missingKey_halts (envKey secretsKey : Option String) (env : Env)
    (t : String) (pressed : Bool)
    (h : truthyOpt (apiKeyOf envKey secretsKey) = false) :
    runApp envKey secretsKey env t pressed
        = .halted [.error "Google API key not found. Please set the \x27GOOGLE_API_KEY\x27 environment variable."]
      ∧ outcomeCalls (runApp envKey secretsKey env t pressed) = [] := by
  constructor <;> simp [runApp, h, outcomeCalls]

theorem missingKey_halts_witness :
    runApp none none envDemo "alpha beta gamma delta epsilon" true
        = .halted [.error "Google API key not found. Please set the \x27GOOGLE_API_KEY\x27 environment variable."]
      ∧ outcomeCalls (runApp none none envDemo "alpha beta gamma delta epsilon" true) = [] :=
  missingKey_halts none none envDemo "alpha beta gamma delta epsilon" true rfl

/-- C9 counterexample: a failure of the unguarded model-listing call at
lines 21-23 propagates uncaught to the presentation surface. -/
theorem listModels_uncaught_counterexample :
    runApp (some "AIza-key") none envListFail "alpha beta gamma delta epsilon" true
      = .raised "PermissionDenied: 403 API key not valid" := rfl

/-- C9 amended: provided the model-listing call succeeds, no raw
exception ever propagates — every detection, translation, generation,
back-translation and configuration failure is caught at its stage
boundary. -/
theorem stage_failures_caught (envKey secretsKey : Option String) (env : Env)
    (t : String) (pressed : Bool) (ms : List String)
    (h : env.listModels = .ok ms) :
    ∀ e, runApp envKey secretsKey env t pressed ≠ AppOutcome.raised e := by
  intro e
  by_cases hk : truthyOpt (apiKeyOf envKey secretsKey) = false
  · simp [runApp, hk]
  · cases hc : env.configure with
    | error ec => simp [runApp, hk, h, hc]
    | ok u => simp [runApp, hk, h, hc]

theorem stage_failures_caught_witness :
    runApp (some "AIza-key") none envDemo "alpha beta gamma delta epsilon" true
      ≠ AppOutcome.raised "boom" :=
  stage_failures_caught (some "AIza-key") none envDemo
    "alpha beta gamma delta epsilon" true ["models/gemini-1.5-flash"] rfl "boom"

/-- C10: whenever a back-translation call (source "en") is issued,
detection succeeded with a non-"en" tag, the forward translation
succeeded, the back-translation targets the detected tag, and the
generator received the translated text; contrapositively, after a
detection or forward-translation exception no back-translation call is
ever issued. -/
theorem backTranslation_requires_forward (env : Env) (t q d : String)
    (h : ExtCall.translate q "en" d ∈ (runMain env t true).calls) :
    ∃ lang fwd, env.detect t = .ok lang ∧ lang ≠ "en" ∧ d = lang
      ∧ env.translate t lang "en" = .ok fwd
      ∧ ExtCall.generate (promptTemplate fwd) ∈ (runMain env t true).calls := by
  by_cases hw : countWords t < minWordLimit
  · simp [runMain, hw] at h
  · rw [runMain_pressed env t hw] at h ⊢
    cases hd : env.detect t with
    | error e =>
      rw [mainGenerate_no_back env t t _ _ (resolveStep_detect_error env t e hd)] at h
      simp at h
    | ok lang =>
      by_cases hlang : lang = "en"
      · subst hlang
        rw [mainGenerate_no_back env t t _ _ (resolveStep_en env t hd)] at h
        simp at h
      · cases hf : env.translate t lang "en" with
        | error e =>
          rw [mainGenerate_no_back env t t _ _
            (resolveStep_fwd_error env t lang e hd hlang hf)] at h
          simp at h
          exact absurd h.2.1.symm hlang
        | ok fwd =>
          have hres := resolveStep_fwd_ok env t lang fwd hd hlang hf
          cases hg : env.generateContent (promptTemplate fwd) with
          | ok s =>
            by_cases hstrip : strip s == ""
            · cases hb : env.translate noQuestionsMsg "en" lang with
              | ok b =>
                simp [mainGenerate, hres, generate_questions, hg, hstrip, hlang, hb] at h
                rcases h with ⟨hq, hcontra, hd'⟩ | ⟨hq, hd'⟩
                · exact absurd hcontra.symm hlang
                · exact ⟨lang, fwd, rfl, hlang, hd', hf, by
                    simp [mainGenerate, hres, generate_questions, hg, hstrip, hlang, hb]⟩
              | error e2 =>
                simp [mainGenerate, hres, generate_questions, hg, hstrip, hlang, hb] at h
                rcases h with ⟨hq, hcontra, hd'⟩ | ⟨hq, hd'⟩
                · exact absurd hcontra.symm hlang
                · exact ⟨lang, fwd, rfl, hlang, hd', hf, by
                    simp [mainGenerate, hres, generate_questions, hg, hstrip, hlang, hb]⟩
            · cases hb : env.translate (strip s) "en" lang with
              | ok b =>
                simp [mainGenerate, hres, generate_questions, hg, hstrip, hlang, hb] at h
                rcases h with ⟨hq, hcontra, hd'⟩ | ⟨hq, hd'⟩
                · exact absurd hcontra.symm hlang
                · exact ⟨lang, fwd, rfl, hlang, hd', hf, by
                    simp [mainGenerate, hres, generate_questions, hg, hstrip, hlang, hb]⟩
              | error e2 =>
                simp [mainGenerate, hres, generate_questions, hg, hstrip, hlang, hb] at h
                rcases h with ⟨hq, hcontra, hd'⟩ | ⟨hq, hd'⟩
                · exact absurd hcontra.symm hlang
                · exact ⟨lang, fwd, rfl, hlang, hd', hf, by
                    simp [mainGenerate, hres, generate_questions, hg, hstrip, hlang, hb]⟩
          | googleAPIError m2 =>
            simp [mainGenerate, hres, generate_questions, hg] at h
            exact absurd h.2.1.symm hlang
          | otherError m2 =>
            simp [mainGenerate, hres, generate_questions, hg] at h
            exact absurd h.2.1.symm hlang

theorem backTranslation_requires_forward_witness :
    ExtCall.translate "1. Question?" "en" "fr"
        ∈ (runMain envDemo "un deux trois quatre cinq" true).calls
      ∧ ∃ lang fwd, envDemo.detect "un deux trois quatre cinq" = .ok lang
          ∧ lang ≠ "en" ∧ "fr" = lang
          ∧ envDemo.translate "un deux trois quatre cinq" lang "en" = .ok fwd
          ∧ ExtCall.generate (promptTemplate fwd)
              ∈ (runMain envDemo "un deux trois quatre cinq" true).calls :=
  ⟨by decide,
   backTranslation_requires_forward envDemo "un deux trois quatre cinq"
     "1. Question?" "fr" (by decide)⟩
